import Mathlib

/-!
Shallow embedding of `src/armer_panda/PandaConnector.py` (class `PandaConnector`).

The HTTP transport (`requests.Session`) is an external collaborator: each
network interaction is modelled by the value the private helper `__call`
produces for it — `none` when `__call` exhausted its retries, `some body`
when it returned a 200 response.  Bodies that the Python code feeds to
`json.loads` are modelled as the already-decoded structures (decoding is the
external `json` library); the system-version body, which the code processes
as raw text, is kept as a `String`.

Mutable attributes of the `PandaConnector` object and of its
`requests.Session` (the `authorization` cookie, the `X-Control-Token`
header) form `ConnectorState`; every method becomes a function from the
state and the transport outcomes to its returned value and the new state.

Wall-clock time (`time.time()`) is modelled in discrete quanta as an
integer-valued trace `clock : Nat → Int` of successive readings; each loop
iteration of the force-acquire poll performs a network round trip, which
takes at least one quantum, so the trace is strictly increasing.
-/

namespace PandaConnector

/-- Decoded body of `GET /admin/api/control-token`: field `activeToken`,
`null` when nobody holds control, otherwise an object with field `id`. -/
structure ActiveHolder where
  id : Int
  deriving DecidableEq, Repr

structure ActiveTokenResponse where
  activeToken : Option ActiveHolder
  deriving DecidableEq, Repr

/-- Decoded body of `POST /admin/api/control-token/request[?force]`:
fields `token` and `id`. -/
structure TokenGrant where
  token : String
  id : Int
  deriving DecidableEq, Repr

/-- Decoded body of `GET /admin/api/safety`: field `tokenForceTimeout`. -/
structure SafetyResponse where
  tokenForceTimeout : Int
  deriving DecidableEq, Repr

/-- The mutable attributes set in `__init__` (lines 27–36) plus the two
session-scoped mutable entries the methods touch: the `authorization`
cookie (line 56) and the `X-Control-Token` header (lines 97, 119). -/
structure ConnectorState where
  connected : Bool
  version : Option String
  control_token_req : Bool
  control_token : Option String
  control_token_id : Option Int
  authCookie : Option String
  controlHeader : Option String
  deriving DecidableEq, Repr

/-- The state right after `__init__`. -/
def initState : ConnectorState :=
  { connected := false, version := none, control_token_req := false,
    control_token := none, control_token_id := none,
    authCookie := none, controlHeader := none }

/-! ### `__call` (lines 171–184): bounded retry over the raw transport -/

/-- One raw transport attempt: either `session.request` raised
(timeout / connection error) or it returned a status code and a body. -/
inductive AttemptOutcome where
  | exn
  | resp (status : Nat) (body : String)
  deriving DecidableEq, Repr

def AttemptOutcome.isSuccess : AttemptOutcome → Bool
  | .exn => false
  | .resp status _ => status == 200

/-- The retry loop of `__call` from a given value of `attempts`; the
transport is an oracle indexed by the current value of `attempts` (each
iteration issues exactly one request, and `attempts` counts the failed
ones, so the n-th request is issued with `attempts = n`).  Returns the
result (`some body` on a 200 response, `none` on exhaustion) together with
the total number of requests issued. -/
def callFrom (transport : Nat → AttemptOutcome) (retries : Nat) (attempts : Nat) :
    Option String × Nat :=
  if attempts < retries + 1 then
    match transport attempts with
    | .exn => callFrom transport retries (attempts + 1)
    | .resp status body =>
        if status = 200 then (some body, attempts + 1)
        else callFrom transport retries (attempts + 1)
  else (none, attempts)
  termination_by retries + 1 - attempts

/-- `__call(endpoint, reqtype, json, retries)`: starts with `attempts = 0`. -/
def call (transport : Nat → AttemptOutcome) (retries : Nat) : Option String × Nat :=
  callFrom transport retries 0

/-! ### `login` (lines 51–58), `logout` (lines 60–65) -/

def login (s : ConnectorState) (resp : Option String) : Bool × ConnectorState :=
  match resp with
  | none => (false, s)
  | some body => (true, { s with authCookie := some body, connected := true })

def logout (s : ConnectorState) (callOk : Bool) : Bool × ConnectorState :=
  if callOk then (true, { s with connected := false })
  else (false, s)

/-! ### `read_system_version` (lines 67–75) -/

/-- Python `str.strip(c)`: remove every leading and trailing occurrence of
the character `c`. -/
def pyStrip (c : Char) (s : String) : String :=
  ⟨((s.data.dropWhile (· == c)).reverse.dropWhile (· == c)).reverse⟩

/-- Python `str.split(sep)` for a one-character separator: cut at every
occurrence of the character. -/
def splitOnChar (c : Char) : List Char → List (List Char)
  | [] => [[]]
  | x :: xs =>
      if x == c then [] :: splitOnChar c xs
      else
        match splitOnChar c xs with
        | [] => [[x]]
        | piece :: rest => (x :: piece) :: rest

/-- Python `str.split(sep)` for a two-character separator: cut at every
non-overlapping occurrence, scanning left to right. -/
def splitOnPair (a b : Char) : List Char → List (List Char)
  | [] => [[]]
  | [x] => [[x]]
  | x :: y :: xs =>
      if x == a && y == b then [] :: splitOnPair a b xs
      else
        match splitOnPair a b (y :: xs) with
        | [] => [[x]]
        | piece :: rest => (x :: piece) :: rest

/-- Python expression `resp.text.strip('\"').split('\\n')[0]` of line 72:
strip surrounding quote characters, split on the literal two-character
sequence backslash-n, take the first piece (`str.split` always yields a
non-empty list, so the index is safe). -/
def firstVersionLine (body : String) : String :=
  ⟨((splitOnPair '\\' 'n' (pyStrip '"' body).data).headD [])⟩

/-- Numeric value of a digit string (the release components the arm
reports are plain decimal numbers). -/
def digitsVal (cs : List Char) : Nat :=
  cs.foldl (fun n c => n * 10 + (c.toNat - 48)) 0

/-- Release segment of `packaging.version.parse`, modelling the external
`packaging` library on the plain dotted numeric versions this service
emits: split on dots, read each piece as a number. -/
def parseRelease (v : String) : List Nat :=
  (splitOnChar '.' v.data).map digitsVal

/-- PEP 440 comparison of release segments: compare componentwise, a
missing component counts as zero. -/
def releaseCmp : List Nat → List Nat → Ordering
  | [], bs => if bs.all (· == 0) then .eq else .lt
  | a :: as, [] => if 0 < a then .gt else releaseCmp as []
  | a :: as, b :: bs =>
      if a < b then .lt else if b < a then .gt else releaseCmp as bs

/-- `version.parse(self.version) >= version.parse("4.2.0")` (line 73). -/
def versionGe (a b : String) : Bool :=
  match releaseCmp (parseRelease a) (parseRelease b) with
  | .lt => false
  | _ => true

def read_system_version (s : ConnectorState) (resp : Option String) :
    Bool × ConnectorState :=
  match resp with
  | none => (false, s)
  | some body =>
      let v := firstVersionLine body
      let s1 := { s with version := some v }
      if versionGe v "4.2.0" then (true, { s1 with control_token_req := true })
      else (true, s1)

/-! ### `is_control_token_active` (lines 130–142) -/

def is_control_token_active (s : ConnectorState)
    (resp : Option ActiveTokenResponse) : Bool :=
  match resp with
  | none => false
  | some r =>
      match r.activeToken with
      | none => false
      | some holder => some holder.id == s.control_token_id

/-! ### `acquire_control_token` (lines 77–121)

The forced branch ends in the poll of lines 102–108:
```
control_acquired = False
start = time.time()
while time.time() < start + timeout:
  if self.is_control_token_active():
    control_acquired = True
    break
return control_acquired
```
`clock j` is the value the j-th loop-condition reading of `time.time()`
returns (the reading stored in `start` happens just before, so
`start ≤ clock 0`); the j-th poll of `is_control_token_active` sees the
response `active j`.  Each iteration performs a network round trip taking
at least one time quantum, hence the readings are strictly increasing,
which is what makes the loop terminate. -/

def pollLoop (s : ConnectorState) (active : Nat → Option ActiveTokenResponse)
    (clock : Nat → Int) (deadline : Int)
    (hclock : ∀ k, clock k + 1 ≤ clock (k + 1)) (j : Nat) : Bool × Nat :=
  if h : clock j < deadline then
    if is_control_token_active s (active j) then (true, 1)
    else
      let r := pollLoop s active clock deadline hclock (j + 1)
      (r.1, r.2 + 1)
  else (false, 0)
  termination_by (deadline - clock j).toNat
  decreasing_by
    have := hclock j
    omega

/-- `acquire_control_token(force=True)` (lines 82–108).  Inputs: the
decoded outcome of the safety query, of the forced token request, the
poll-response oracle and the clock trace.  Output: the returned boolean,
the new state, and the number of `is_control_token_active` polls
performed. -/
def acquire_control_token_forced (s : ConnectorState)
    (safety : Option SafetyResponse) (grant : Option TokenGrant)
    (active : Nat → Option ActiveTokenResponse)
    (start : Int) (clock : Nat → Int)
    (hclock : ∀ k, clock k + 1 ≤ clock (k + 1)) :
    Bool × ConnectorState × Nat :=
  match safety with
  | none => (false, s, 0)
  | some saf =>
      match grant with
      | none => (false, s, 0)
      | some g =>
          let s1 := { s with control_token := some g.token,
                             control_token_id := some g.id,
                             controlHeader := some g.token }
          let r := pollLoop s1 active clock (start + saf.tokenForceTimeout)
            hclock 0
          (r.1, s1, r.2)

/-- `acquire_control_token(force=False)` (lines 110–121).  Inputs: the
decoded outcome of the standard token request and of the single
active-token query.  Output: the returned boolean, the new state, and the
number of `is_control_token_active` checks performed. -/
def acquire_control_token_std (s : ConnectorState) (grant : Option TokenGrant)
    (activeResp : Option ActiveTokenResponse) : Bool × ConnectorState × Nat :=
  match grant with
  | none => (false, s, 0)
  | some g =>
      let s1 := { s with control_token := some g.token,
                         control_token_id := some g.id,
                         controlHeader := some g.token }
      (is_control_token_active s1 activeResp, s1, 1)

/-! ### `can_control` (lines 123–128) -/

def can_control (s : ConnectorState) (activeResp : Option ActiveTokenResponse) :
    Bool :=
  if s.control_token_req && is_control_token_active s activeResp then true
  else if !s.control_token_req then true
  else false

/-! ### `release_control_token` (lines 144–149)

Line 147 of the source reads `self.control_token == None`: an equality
test whose value is discarded, not an assignment, so no attribute is
modified on the success path. -/

def release_control_token (s : ConnectorState) (callOk : Bool) :
    Bool × ConnectorState :=
  if callOk then (true, s)
  else (false, s)

/-- What line 147 was evidently meant to do (`=` instead of `==`), per the
spec sentence "On success, clears local token state": the intended success
path of `release_control_token`. -/
def release_control_token_intended (s : ConnectorState) (callOk : Bool) :
    Bool × ConnectorState :=
  if callOk then
    (true, { s with control_token := none, control_token_id := none })
  else (false, s)

/-! ### `enable_fci`, `disable_fci`, `open_brakes`, `close_brakes`,
`home_gripper` (lines 151–169): single passthrough requests, no attribute
is written. -/

def enable_fci (s : ConnectorState) (callOk : Bool) : Bool × ConnectorState :=
  (callOk, s)

def disable_fci (s : ConnectorState) (callOk : Bool) : Bool × ConnectorState :=
  (callOk, s)

def open_brakes (s : ConnectorState) (callOk : Bool) : Bool × ConnectorState :=
  (callOk, s)

def close_brakes (s : ConnectorState) (callOk : Bool) : Bool × ConnectorState :=
  (callOk, s)

def home_gripper (s : ConnectorState) (callOk : Bool) : Bool × ConnectorState :=
  (callOk, s)

/-! ## Helper lemmas -/

/-- A strictly increasing clock trace is monotone. -/
theorem clock_mono (clock : Nat → Int)
    (hclock : ∀ k, clock k + 1 ≤ clock (k + 1)) :
    ∀ {j k : Nat}, j ≤ k → clock j ≤ clock k := by
  intro j k h
  induction k with
  | zero =>
      have hj : j = 0 := Nat.le_zero.mp h
      simp [hj]
  | succ k ih =>
      rcases Nat.lt_or_ge j (k + 1) with hlt | hge
      · have h1 := ih (Nat.lt_succ_iff.mp hlt)
        have h2 := hclock k
        omega
      · have hj : j = k + 1 := Nat.le_antisymm h hge
        simp [hj]

/-- The poll of lines 102–108 returns `true` exactly when some
`is_control_token_active` query answers `true` while the clock is still
below the deadline. -/
theorem pollLoop_true_iff (s : ConnectorState)
    (active : Nat → Option ActiveTokenResponse) (clock : Nat → Int)
    (deadline : Int) (hclock : ∀ k, clock k + 1 ≤ clock (k + 1)) (j : Nat) :
    (pollLoop s active clock deadline hclock j).1 = true ↔
      ∃ k, j ≤ k ∧ clock k < deadline ∧
        is_control_token_active s (active k) = true := by
  induction j using pollLoop.induct s active clock deadline hclock with
  | case1 x hlt hact =>
      rw [pollLoop]
      simp only [dif_pos hlt, if_pos hact, true_iff]
      exact ⟨x, Nat.le_refl x, hlt, hact⟩
  | case2 x hlt hact ih =>
      rw [pollLoop]
      simp only [dif_pos hlt, if_neg hact]
      rw [ih]
      constructor
      · rintro ⟨k, hk, hck, hak⟩
        exact ⟨k, Nat.le_of_succ_le hk, hck, hak⟩
      · rintro ⟨k, hk, hck, hak⟩
        rcases Nat.lt_or_ge x k with hgt | hle
        · exact ⟨k, hgt, hck, hak⟩
        · exact absurd hak (by have : k = x := Nat.le_antisymm hle hk; simp [this, hact])
  | case3 x hge =>
      rw [pollLoop]
      simp only [dif_neg hge]
      constructor
      · intro h
        simp at h
      · rintro ⟨k, hk, hck, _⟩
        have := clock_mono clock hclock hk
        omega

/-- Each poll iteration advances the clock by at least one quantum, so the
number of polls is bounded by the time remaining at entry. -/
theorem pollLoop_count_le (s : ConnectorState)
    (active : Nat → Option ActiveTokenResponse) (clock : Nat → Int)
    (deadline : Int) (hclock : ∀ k, clock k + 1 ≤ clock (k + 1)) (j : Nat) :
    (pollLoop s active clock deadline hclock j).2 ≤ (deadline - clock j).toNat := by
  induction j using pollLoop.induct s active clock deadline hclock with
  | case1 x hlt hact =>
      rw [pollLoop]
      simp only [dif_pos hlt, if_pos hact]
      omega
  | case2 x hlt hact ih =>
      rw [pollLoop]
      simp only [dif_pos hlt, if_neg hact]
      have := hclock x
      omega
  | case3 x hge =>
      rw [pollLoop]
      simp only [dif_neg hge]
      omega

/-- When the deadline is already past at entry, the poll exits at once:
no iteration runs, the result is `false`. -/
theorem pollLoop_deadline_past (s : ConnectorState)
    (active : Nat → Option ActiveTokenResponse) (clock : Nat → Int)
    (deadline : Int) (hclock : ∀ k, clock k + 1 ≤ clock (k + 1)) (j : Nat)
    (h : deadline ≤ clock j) :
    pollLoop s active clock deadline hclock j = (false, 0) := by
  rw [pollLoop]
  rw [dif_neg (by omega)]

/-- If every attempt fails, the retry loop of `__call` runs until
`attempts` reaches `retries + 1` and returns failure. -/
theorem callFrom_all_fail (transport : Nat → AttemptOutcome) (retries : Nat)
    (h : ∀ n, (transport n).isSuccess = false) :
    ∀ attempts, attempts ≤ retries + 1 →
      callFrom transport retries attempts = (none, retries + 1) := by
  intro attempts
  induction attempts using callFrom.induct transport retries with
  | case1 x hx htr ih =>
      intro _
      rw [callFrom]
      simp only [if_pos hx, htr]
      exact ih (by omega)
  | case2 x hx body htr =>
      intro _
      have := h x
      rw [htr] at this
      simp [AttemptOutcome.isSuccess] at this
  | case3 x hx status body htr hne ih =>
      intro _
      rw [callFrom]
      simp only [if_pos hx, htr, if_neg hne]
      exact ih (by omega)
  | case4 x hx =>
      intro hle
      have hx1 : x = retries + 1 := by omega
      rw [callFrom]
      simp only [if_neg hx]
      simp [hx1]

/-- If attempt `k` returns a 200 response and every earlier attempt fails,
the retry loop of `__call` returns that response after exactly `k + 1`
requests. -/
theorem callFrom_success_at (transport : Nat → AttemptOutcome) (retries : Nat)
    (k : Nat) (body : String) (hk : k < retries + 1)
    (hsucc : transport k = .resp 200 body) :
    ∀ attempts, attempts ≤ k →
      (∀ j, attempts ≤ j → j < k → (transport j).isSuccess = false) →
      callFrom transport retries attempts = (some body, k + 1) := by
  intro attempts
  induction attempts using callFrom.induct transport retries with
  | case1 x hx htr ih =>
      intro hle hfail
      have hxk : x ≠ k := by
        intro hxx
        rw [hxx, hsucc] at htr
        exact AttemptOutcome.noConfusion htr
      rw [callFrom]
      simp only [if_pos hx, htr]
      exact ih (by omega) (fun j h1 h2 => hfail j (by omega) h2)
  | case2 x hx body' htr =>
      intro hle hfail
      have hxk : x = k := by
        by_contra hxx
        have hf := hfail x (Nat.le_refl x) (by omega)
        rw [htr] at hf
        simp [AttemptOutcome.isSuccess] at hf
      have hbody : body' = body := by
        have h2 := hsucc
        rw [← hxk, htr] at h2
        injection h2
      rw [callFrom]
      simp only [if_pos hx, htr]
      simp [hbody, hxk]
  | case3 x hx status body' htr hne ih =>
      intro hle hfail
      have hxk : x ≠ k := by
        intro hxx
        rw [hxx, hsucc] at htr
        injection htr with hst _
        exact hne hst.symm
      rw [callFrom]
      simp only [if_pos hx, htr, if_neg hne]
      exact ih (by omega) (fun j h1 h2 => hfail j (by omega) h2)
  | case4 x hx =>
      intro hle _
      omega

/-- A concrete clock trace, one quantum per reading, used to instantiate
the timing hypotheses on concrete runs. -/
def tickClock : Nat → Int := fun k => k

theorem tickClock_succ (k : Nat) : tickClock k + 1 ≤ tickClock (k + 1) := by
  simp [tickClock]

/-! ## The claims -/

/-- Claim C1 (the code bug exhibited): on a session holding token value
"tok-a" with identifier 1, a successful DELETE makes
`release_control_token` return `true`, yet neither the stored token value
nor the identifier is cleared — line 147 of the source reads
`self.control_token == None`, an equality test whose result is discarded,
where the spec's "On success, clears local token state" (and the evident
intent, a single `=`) requires an assignment.  The intended assignment,
`release_control_token_intended`, does clear the state. -/
theorem release_leaves_token_state :
    release_control_token
        { initState with control_token := some "tok-a", control_token_id := some 1 }
        true =
      (true,
        { initState with control_token := some "tok-a", control_token_id := some 1 }) ∧
    (release_control_token_intended
        { initState with control_token := some "tok-a", control_token_id := some 1 }
        true).2.control_token = none ∧
    (release_control_token_intended
        { initState with control_token := some "tok-a", control_token_id := some 1 }
        true).2.control_token_id = none := by
  exact ⟨rfl, rfl, rfl⟩

/-- Claim C3: for every `retries = N`, against a transport that fails on
every attempt (exception or non-200 status) the retry loop of `__call`
issues exactly `N + 1` requests and returns failure; and a 200 response on
attempt `k` (every earlier attempt failing) is returned immediately, after
exactly `k + 1` requests. -/
theorem call_retry_semantics (transport : Nat → AttemptOutcome) (N : Nat) :
    ((∀ n, (transport n).isSuccess = false) → call transport N = (none, N + 1)) ∧
    (∀ k body, k < N + 1 → (∀ j, j < k → (transport j).isSuccess = false) →
      transport k = AttemptOutcome.resp 200 body →
      call transport N = (some body, k + 1)) := by
  constructor
  · intro h
    exact callFrom_all_fail transport N h 0 (Nat.zero_le _)
  · intro k body hk hfail hsucc
    exact callFrom_success_at transport N k body hk hsucc 0 (Nat.zero_le _)
      (fun j _ hj => hfail j hj)

/-- Witness for C3: a transport that always raises, with `retries = 2`,
yields failure after exactly 3 requests; a transport that fails once and
then returns 200 yields that body after exactly 2 requests. -/
theorem call_retry_semantics_witness :
    (∀ n, ((fun _ : Nat => AttemptOutcome.exn) n).isSuccess = false) ∧
    call (fun _ : Nat => AttemptOutcome.exn) 2 = (none, 3) ∧
    call (fun n : Nat => if n = 0 then AttemptOutcome.exn else AttemptOutcome.resp 200 "ok") 2
      = (some "ok", 2) := by
  refine ⟨fun n => rfl, ?_, ?_⟩
  · exact (call_retry_semantics (fun _ : Nat => AttemptOutcome.exn) 2).1 (fun n => rfl)
  · exact (call_retry_semantics
        (fun n : Nat => if n = 0 then AttemptOutcome.exn else AttemptOutcome.resp 200 "ok") 2).2
      1 "ok" (by omega)
      (fun j hj => by
        have hj0 : j = 0 := by omega
        subst hj0
        rfl)
      rfl

/-- Claim C4, amended: on a successful response `read_system_version`
stores the first line of the quote-wrapped body as the version and,
provided `control_token_req` was false beforehand (as it is on the freshly
initialized session `connect` uses), the flag afterwards equals
`version ≥ 4.2.0` — true at exactly 4.2.0, false below.  The amendment is
forced because the code has no else branch: it only ever sets the flag to
true, so from a state where the flag is already true a version below 4.2.0
leaves it true, not false as the claim states
(`read_system_version_already_true`). -/
theorem read_system_version_requirement (s : ConnectorState) (body : String)
    (h : s.control_token_req = false) :
    (read_system_version s (some body)).1 = true ∧
    (read_system_version s (some body)).2.version = some (firstVersionLine body) ∧
    (read_system_version s (some body)).2.control_token_req =
      versionGe (firstVersionLine body) "4.2.0" := by
  by_cases hv : versionGe (firstVersionLine body) "4.2.0" = true
  · simp [read_system_version, hv]
  · simp [read_system_version, hv, h]

/-- Counterexample to C4 as stated: with `control_token_req` already true,
a successful response carrying version "4.1.9" (below 4.2.0) leaves the
flag true, while the claim demands it be set to false. -/
theorem read_system_version_already_true :
    (read_system_version { initState with control_token_req := true }
        (some "\"4.1.9\"")).1 = true ∧
    (read_system_version { initState with control_token_req := true }
        (some "\"4.1.9\"")).2.control_token_req = true := ⟨rfl, rfl⟩

/-- Witness for C4: on the fresh session, body `"4.2.0"` (the boundary)
sets the flag true, and body `"4.1.9"` leaves it false. -/
theorem read_system_version_requirement_witness :
    initState.control_token_req = false ∧
    (read_system_version initState (some "\"4.2.0\"")).2.control_token_req = true ∧
    (read_system_version initState (some "\"4.1.9\"")).2.control_token_req = false := by
  refine ⟨rfl, ?_, ?_⟩
  · rw [(read_system_version_requirement initState "\"4.2.0\"" rfl).2.2]
    rfl
  · rw [(read_system_version_requirement initState "\"4.1.9\"" rfl).2.2]
    rfl

/-- Claim C5: `acquire_control_token(force=False)`, after a successful
standard token request, stores the returned token value and identifier,
attaches the token to the session headers, performs exactly one
`is_control_token_active` check and returns its result immediately; in
particular, when another holder is active it returns false while the
stored token and header remain in place. -/
theorem acquire_std_semantics (s : ConnectorState) (g : TokenGrant)
    (activeResp : Option ActiveTokenResponse) :
    (acquire_control_token_std s (some g) activeResp).2.1 =
      { s with control_token := some g.token, control_token_id := some g.id,
               controlHeader := some g.token } ∧
    (acquire_control_token_std s (some g) activeResp).2.2 = 1 ∧
    (acquire_control_token_std s (some g) activeResp).1 =
      is_control_token_active
        { s with control_token := some g.token, control_token_id := some g.id,
                 controlHeader := some g.token } activeResp ∧
    (∀ holder, activeResp = some ⟨some holder⟩ → holder.id ≠ g.id →
      (acquire_control_token_std s (some g) activeResp).1 = false) := by
  refine ⟨rfl, rfl, rfl, ?_⟩
  rintro holder rfl hne
  simp only [acquire_control_token_std, is_control_token_active]
  simp [hne]

/-- Witness for C5: a standard request granted token "tok-b"/id 2 while
holder 9 is active returns false, yet the token value is stored. -/
theorem acquire_std_semantics_witness :
    (acquire_control_token_std initState (some ⟨"tok-b", 2⟩)
        (some ⟨some ⟨9⟩⟩)).1 = false ∧
    (acquire_control_token_std initState (some ⟨"tok-b", 2⟩)
        (some ⟨some ⟨9⟩⟩)).2.1.control_token = some "tok-b" ∧
    (acquire_control_token_std initState (some ⟨"tok-b", 2⟩)
        (some ⟨some ⟨9⟩⟩)).2.2 = 1 := by
  refine ⟨?_, ?_, ?_⟩
  · exact (acquire_std_semantics initState ⟨"tok-b", 2⟩
      (some ⟨some ⟨9⟩⟩)).2.2.2 ⟨9⟩ rfl (by decide)
  · rw [(acquire_std_semantics initState ⟨"tok-b", 2⟩ (some ⟨some ⟨9⟩⟩)).1]
  · exact (acquire_std_semantics initState ⟨"tok-b", 2⟩ (some ⟨some ⟨9⟩⟩)).2.1

/-- Claim C6: `is_control_token_active` returns false whenever the server
reports no active holder (`activeToken` null), and when a holder is
reported it returns true exactly when the reported holder's identifier
equals this instance's stored token identifier. -/
theorem is_active_semantics (s : ConnectorState) (r : ActiveTokenResponse) :
    (r.activeToken = none → is_control_token_active s (some r) = false) ∧
    (∀ holder, r.activeToken = some holder →
      (is_control_token_active s (some r) = true ↔
        s.control_token_id = some holder.id)) := by
  constructor
  · intro h
    simp [is_control_token_active, h]
  · intro holder h
    simp only [is_control_token_active, h, beq_iff_eq]
    exact eq_comm

/-- Witness for C6: a null `activeToken` gives false; a holder whose id
matches the stored id 3 gives true; a mismatching holder gives false. -/
theorem is_active_semantics_witness :
    is_control_token_active initState (some ⟨none⟩) = false ∧
    is_control_token_active { initState with control_token_id := some 3 }
      (some ⟨some ⟨3⟩⟩) = true ∧
    is_control_token_active { initState with control_token_id := some 3 }
      (some ⟨some ⟨4⟩⟩) = false := by
  refine ⟨?_, ?_, ?_⟩
  · exact (is_active_semantics initState ⟨none⟩).1 rfl
  · exact ((is_active_semantics { initState with control_token_id := some 3 }
      ⟨some ⟨3⟩⟩).2 ⟨3⟩ rfl).mpr rfl
  · have h := (is_active_semantics { initState with control_token_id := some 3 }
      ⟨some ⟨4⟩⟩).2 ⟨4⟩ rfl
    by_cases ht : is_control_token_active { initState with control_token_id := some 3 }
        (some ⟨some ⟨4⟩⟩) = true
    · exact absurd (h.mp ht) (by decide)
    · simpa using ht

/-- Claim C7: `logout`, when its request succeeds, returns true and the
new state is the old one with only the `connected` flag cleared — in
particular the stored `authorization` cookie and every other field are
unchanged. -/
theorem logout_frame (s : ConnectorState) :
    logout s true = (true, { s with connected := false }) ∧
    (logout s true).2.authCookie = s.authCookie ∧
    (logout s true).2.version = s.version ∧
    (logout s true).2.control_token_req = s.control_token_req ∧
    (logout s true).2.control_token = s.control_token ∧
    (logout s true).2.control_token_id = s.control_token_id ∧
    (logout s true).2.controlHeader = s.controlHeader :=
  ⟨rfl, rfl, rfl, rfl, rfl, rfl, rfl⟩

/-- Claim C2: `acquire_control_token(force=True)`, after a successful
safety query yielding `tokenForceTimeout` and a successful forced token
request, polls `is_control_token_active` in a loop bounded strictly by the
timeout: it returns true exactly when some poll reports the token active
while the elapsed wall-clock time is still below `tokenForceTimeout`, and
the number of polls never exceeds `tokenForceTimeout` time quanta.  The
poll cannot run indefinitely: `pollLoop` is total (well-founded recursion
on the time remaining before the deadline, which each iteration's network
round trip strictly decreases). -/
theorem acquire_forced_poll_bounded (s : ConnectorState) (saf : SafetyResponse)
    (g : TokenGrant) (active : Nat → Option ActiveTokenResponse)
    (start : Int) (clock : Nat → Int)
    (hclock : ∀ k, clock k + 1 ≤ clock (k + 1)) (hstart : start ≤ clock 0) :
    ((acquire_control_token_forced s (some saf) (some g) active start clock
        hclock).1 = true ↔
      ∃ k, clock k < start + saf.tokenForceTimeout ∧
        is_control_token_active
          { s with control_token := some g.token, control_token_id := some g.id,
                   controlHeader := some g.token } (active k) = true) ∧
    (acquire_control_token_forced s (some saf) (some g) active start clock
        hclock).2.2 ≤ saf.tokenForceTimeout.toNat := by
  constructor
  · simp only [acquire_control_token_forced]
    rw [pollLoop_true_iff]
    constructor
    · rintro ⟨k, _, hc, ha⟩
      exact ⟨k, hc, ha⟩
    · rintro ⟨k, hc, ha⟩
      exact ⟨k, Nat.zero_le k, hc, ha⟩
  · simp only [acquire_control_token_forced]
    have h := pollLoop_count_le
      { s with control_token := some g.token, control_token_id := some g.id,
               controlHeader := some g.token }
      active clock (start + saf.tokenForceTimeout) hclock 0
    omega

/-- Witness for C2: timeout 5, a strictly ticking clock starting at 0, and
a service that reports our token (id 7) active at the very first poll:
the forced acquisition returns true. -/
theorem acquire_forced_poll_bounded_witness :
    (acquire_control_token_forced initState (some ⟨5⟩) (some ⟨"tok-c", 7⟩)
        (fun _ : Nat => some ⟨some ⟨7⟩⟩) 0 tickClock tickClock_succ).1 = true ∧
    (0 : Int) ≤ tickClock 0 := by
  refine ⟨?_, by decide⟩
  exact ((acquire_forced_poll_bounded initState ⟨5⟩ ⟨"tok-c", 7⟩
      (fun _ : Nat => some ⟨some ⟨7⟩⟩) 0 tickClock tickClock_succ
      (by decide)).1).mpr ⟨0, by decide, by decide⟩

/-- Claim C9: if the safety endpoint reports `tokenForceTimeout ≤ 0`,
`acquire_control_token(force=True)` — after storing the forced token and
attaching its header — returns false with zero `is_control_token_active`
polls, whatever the active-token oracle would have answered. -/
theorem acquire_forced_nonpos_timeout (s : ConnectorState) (saf : SafetyResponse)
    (g : TokenGrant) (active : Nat → Option ActiveTokenResponse)
    (start : Int) (clock : Nat → Int)
    (hclock : ∀ k, clock k + 1 ≤ clock (k + 1)) (hstart : start ≤ clock 0)
    (hT : saf.tokenForceTimeout ≤ 0) :
    acquire_control_token_forced s (some saf) (some g) active start clock hclock =
      (false,
        { s with control_token := some g.token, control_token_id := some g.id,
                 controlHeader := some g.token }, 0) := by
  simp only [acquire_control_token_forced]
  rw [pollLoop_deadline_past _ _ _ _ _ _ (by omega)]

/-- Witness for C9: timeout 0 and an oracle that would report our token
(id 4) active at every poll: the forced acquisition still returns false
after zero polls, with the token stored and the header attached. -/
theorem acquire_forced_nonpos_timeout_witness :
    acquire_control_token_forced initState (some ⟨0⟩) (some ⟨"tok-d", 4⟩)
        (fun _ : Nat => some ⟨some ⟨4⟩⟩) 0 tickClock tickClock_succ =
      (false,
        { initState with control_token := some "tok-d",
                         control_token_id := some 4,
                         controlHeader := some "tok-d" }, 0) :=
  acquire_forced_nonpos_timeout initState ⟨0⟩ ⟨"tok-d", 4⟩
    (fun _ : Nat => some ⟨some ⟨4⟩⟩) 0 tickClock tickClock_succ
    (by decide) (by decide)

/-- Claim C10: when the token-request transport call fails after
exhausting its retries (`__call` returned failure), both branches of
`acquire_control_token` return false with the whole state — stored token
value, identifier and session token header included — exactly as before,
and no poll is performed. -/
theorem acquire_token_request_failure_frame (s : ConnectorState)
    (saf : SafetyResponse) (active : Nat → Option ActiveTokenResponse)
    (activeResp : Option ActiveTokenResponse) (start : Int) (clock : Nat → Int)
    (hclock : ∀ k, clock k + 1 ≤ clock (k + 1)) :
    acquire_control_token_forced s (some saf) none active start clock hclock =
      (false, s, 0) ∧
    acquire_control_token_std s none activeResp = (false, s, 0) :=
  ⟨rfl, rfl⟩

/-- Witness for C10: concrete failing token requests in both branches
leave the fresh session untouched. -/
theorem acquire_token_request_failure_frame_witness :
    acquire_control_token_forced initState (some ⟨30⟩) none
        (fun _ : Nat => none) 0 tickClock tickClock_succ = (false, initState, 0) ∧
    acquire_control_token_std initState none none = (false, initState, 0) :=
  acquire_token_request_failure_frame initState ⟨30⟩ (fun _ : Nat => none) none
    0 tickClock tickClock_succ

/-- Claim C8: `control_token_req` is written only by
`read_system_version` (during `connect`); every other operation — login,
logout, forced and standard token acquisition, token release, FCI
enable/disable, brakes, gripper homing — leaves it unchanged
(`is_control_token_active` and `can_control` write no state at all: they
return a bare boolean). -/
theorem control_token_req_immutable (s : ConnectorState) (body : Option String)
    (ok : Bool) (safety : Option SafetyResponse) (grant : Option TokenGrant)
    (activeResp : Option ActiveTokenResponse)
    (active : Nat → Option ActiveTokenResponse) (start : Int)
    (clock : Nat → Int) (hclock : ∀ k, clock k + 1 ≤ clock (k + 1)) :
    (login s body).2.control_token_req = s.control_token_req ∧
    (logout s ok).2.control_token_req = s.control_token_req ∧
    (acquire_control_token_forced s safety grant active start clock
        hclock).2.1.control_token_req = s.control_token_req ∧
    (acquire_control_token_std s grant activeResp).2.1.control_token_req =
      s.control_token_req ∧
    (release_control_token s ok).2.control_token_req = s.control_token_req ∧
    (enable_fci s ok).2.control_token_req = s.control_token_req ∧
    (disable_fci s ok).2.control_token_req = s.control_token_req ∧
    (open_brakes s ok).2.control_token_req = s.control_token_req ∧
    (close_brakes s ok).2.control_token_req = s.control_token_req ∧
    (home_gripper s ok).2.control_token_req = s.control_token_req := by
  refine ⟨?_, ?_, ?_, ?_, ?_, rfl, rfl, rfl, rfl, rfl⟩
  · cases body <;> rfl
  · cases ok <;> rfl
  · cases safety <;> cases grant <;> rfl
  · cases grant <;> rfl
  · cases ok <;> rfl

/-- Witness for C8: on the fresh session, a run of each state-touching
operation with concrete transport outcomes leaves `control_token_req`
unchanged. -/
theorem control_token_req_immutable_witness :
    (acquire_control_token_forced initState (some ⟨30⟩) (some ⟨"tok-e", 5⟩)
        (fun _ : Nat => none) 0 tickClock tickClock_succ).2.1.control_token_req =
      initState.control_token_req ∧
    (logout initState true).2.control_token_req = initState.control_token_req ∧
    (login initState (some "cred")).2.control_token_req =
      initState.control_token_req := by
  have h := control_token_req_immutable initState (some "cred") true (some ⟨30⟩)
    (some ⟨"tok-e", 5⟩) none (fun _ : Nat => none) 0 tickClock tickClock_succ
  exact ⟨h.2.2.1, h.2.1, h.1⟩

end PandaConnector
